import Mathlib

/-!
Shallow embedding of the job-status polling core of the NotebookLM_Clone
frontend:

* `pollVideoStatus` from `Frontend/src/services/api.ts` (lines 140-179),
  modelled by `pollRun`: the promise-based polling loop with an attempt
  counter, an `onProgress` callback, resolution on status `completed`,
  rejection on status `failed` or on reaching the attempt ceiling, a fixed
  delay on the healthy path and an exponential backoff delay
  `min(interval * 1.5 ^ attempts, 30000)` on the transport-failure path.

* the polling effect of `Frontend/src/components/VideoGenerationProgress.tsx`
  (lines 49-75), modelled by `compStep` / `compRun`: an immediate fetch
  followed by a `setInterval(pollStatus, 2000)` loop whose interval is
  cleared only by the effect cleanup (unmount or dependency change); the
  `isPolling` flag set on terminal statuses gates only the elapsed-time
  ticker of the first effect (lines 35-47), not the fetch loop.

Delays are modelled as exact rationals; in the source they are IEEE doubles,
but every delay actually compared here is exactly representable, and the
30000 cap makes the rounding of large powers irrelevant.
-/

/-- Parsed body of the status endpoint response, from the
`VideoStatusResponse` interface in `api.ts` (lines 32-40). -/
structure VideoStatusResponse where
  status : String
  question_id : String
  progress : Option ℚ := none
  current_step : Option String := none
  estimated_completion : Option String := none
  video_file : Option String := none
  error : Option String := none
  deriving DecidableEq

/-- Result of one status read as observed by the `poll` closure in
`pollVideoStatus`: either `getVideoStatus` resolves with a parsed body, or
it throws (network error, non-2xx response or JSON decode failure), which
lands in the `catch` branch carrying the thrown error. -/
inductive PollStep where
  | ok (s : VideoStatusResponse)
  | err (e : String)
  deriving DecidableEq

/-- Settlement state of the promise returned by `pollVideoStatus`:
`pending` means the supplied trace of read results ran out before any
branch settled the promise. -/
inductive PollOutcome where
  | resolved (s : VideoStatusResponse)
  | rejected (msg : String)
  | pending
  deriving DecidableEq

/-- Observable effects of one run of the `poll` loop: the settlement of the
promise, the payloads passed to `onProgress` in order, the delays handed to
`setTimeout` in order, and the number of status reads consumed. -/
structure PollRunResult where
  outcome : PollOutcome
  progressEvents : List VideoStatusResponse
  delays : List ℚ
  reads : ℕ
  deriving DecidableEq

/-- The retry delay computed in the `catch` branch of `pollVideoStatus`
(line 171): `Math.min(interval * Math.pow(1.5, attempts), 30000)`, where
`attempts` is the already-incremented total attempt counter. -/
def backoffInterval (interval : ℚ) (attempts : ℕ) : ℚ :=
  min (interval * (3 / 2) ^ attempts) 30000

/-- One-step-at-a-time unfolding of the `poll` closure of `pollVideoStatus`
(lines 149-175) over a trace of read results. `attempts` is the value of
the counter on entry; the body increments it before the read, calls
`onProgress` on every successful read, then resolves on `completed`,
rejects with the service error (or the fallback message) on `failed`,
rejects with the timeout message when the incremented counter has reached
`maxAttempts`, and otherwise schedules the next poll after `interval`.
A thrown read rejects with the thrown error at the ceiling and otherwise
schedules the next poll after the backoff delay. An exhausted trace leaves
the promise pending with a read in flight. -/
def pollRun (maxAttempts : ℕ) (interval : ℚ) (attempts : ℕ) :
    List PollStep → PollRunResult
  | [] => ⟨.pending, [], [], 0⟩
  | .ok s :: rest =>
    if s.status = "completed" then
      ⟨.resolved s, [s], [], 1⟩
    else if s.status = "failed" then
      ⟨.rejected (s.error.getD "Video generation failed"), [s], [], 1⟩
    else if maxAttempts ≤ attempts + 1 then
      ⟨.rejected "Video generation timeout", [s], [], 1⟩
    else
      let r := pollRun maxAttempts interval (attempts + 1) rest
      ⟨r.outcome, s :: r.progressEvents, interval :: r.delays, r.reads + 1⟩
  | .err e :: rest =>
    if maxAttempts ≤ attempts + 1 then
      ⟨.rejected e, [], [], 1⟩
    else
      let r := pollRun maxAttempts interval (attempts + 1) rest
      ⟨r.outcome, r.progressEvents,
        backoffInterval interval (attempts + 1) :: r.delays, r.reads + 1⟩

/-- Outcome of one `fetch` performed by the `pollStatus` closure in
`VideoGenerationProgress.tsx` (lines 50-68): a 2xx response with a parsed
body, a non-2xx response (the `response.ok` guard fails and the body is
ignored), or a rejected fetch (caught and only logged). -/
inductive FetchOutcome where
  | ok (s : VideoStatusResponse)
  | httpError
  | networkError
  deriving DecidableEq

/-- Calls dispatched by `pollStatus` to the component props: `onComplete`
with the full status payload, or `onError` with the error message. -/
inductive CompEvent where
  | complete (s : VideoStatusResponse)
  | errorEv (msg : String)
  deriving DecidableEq

/-- React state of `VideoGenerationProgress` relevant to the polling
effect: the `status` state (line 31) and the `isPolling` flag (line 32).
`isPolling` gates only the elapsed-time ticker effect, not the fetch
loop. -/
structure CompState where
  status : Option VideoStatusResponse
  isPolling : Bool
  deriving DecidableEq

/-- Initial component state: `useState(null)` and `useState(true)`. -/
def compInit : CompState := ⟨none, true⟩

/-- One invocation of `pollStatus` (lines 50-68): on a 2xx response the
body is stored via `setStatus`, then `completed` fires `onComplete` and
sets `isPolling` to `false`, and `failed` fires `onError` with the service
error (or the fallback message) and sets `isPolling` to `false`; a non-2xx
response or a network error changes nothing and fires nothing (the catch
branch only logs). The interval itself is untouched in every branch. -/
def compStep (st : CompState) : FetchOutcome → CompState × List CompEvent
  | .ok s =>
    if s.status = "completed" then
      (⟨some s, false⟩, [.complete s])
    else if s.status = "failed" then
      (⟨some s, false⟩, [.errorEv (s.error.getD "Video generation failed")])
    else
      (⟨some s, st.isPolling⟩, [])
  | .httpError => (st, [])
  | .networkError => (st, [])

/-- Observable effects of a sequence of `pollStatus` invocations: final
component state, dispatched events in order, and fetches issued. -/
structure CompRunResult where
  finalState : CompState
  events : List CompEvent
  reads : ℕ
  deriving DecidableEq

/-- Folds `compStep` over the fetch outcomes of successive timer ticks.
One fetch is issued per tick unconditionally, because the interval created
at line 72 is cleared only by the effect cleanup (line 74), which runs on
unmount or on a change of `questionId`/`onComplete`/`onError` — never in
response to a status observation. -/
def compRun (st : CompState) : List FetchOutcome → CompRunResult
  | [] => ⟨st, [], 0⟩
  | f :: rest =>
    let p := compStep st f
    let r := compRun p.1 rest
    ⟨r.finalState, p.2 ++ r.events, r.reads + 1⟩

/-- Start time in milliseconds of the i-th fetch of the component loop:
`pollStatus()` is called immediately (line 71) and `setInterval` fires
every 2000 ms thereafter (line 72). -/
def compReadTime (i : ℕ) : ℕ := 2000 * i

/-- Reads `i` and `j` of the component loop overlap in time: read `j`
starts while read `i`, which takes `durs i` milliseconds to settle, is
still in flight. -/
def compReadConcurrent (durs : ℕ → ℚ) (i j : ℕ) : Prop :=
  i < j ∧ (compReadTime j : ℚ) < (compReadTime i : ℚ) + durs i

/-- Start time of the i-th read issued by `pollVideoStatus`: the first
`poll()` call is synchronous (line 177), and every later read starts only
after the previous read settled (taking `durs` time) and the delay passed
to `setTimeout` elapsed (line 164 or 172). -/
def pollStart (durs delays : ℕ → ℚ) : ℕ → ℚ
  | 0 => 0
  | i + 1 => pollStart durs delays i + durs i + delays i

/-- A non-terminal status payload used for concrete runs. -/
def runningStatus : VideoStatusResponse :=
  { status := "running", question_id := "q1", progress := some 30 }

/-- A completed status payload used for concrete runs. -/
def completedStatus : VideoStatusResponse :=
  { status := "completed", question_id := "q1", progress := some 100,
    video_file := some "video_q1.mp4" }

/-- A service-reported failure payload used for concrete runs, carrying
the error string of the reported-failure scenario. -/
def failedStatus : VideoStatusResponse :=
  { status := "failed", question_id := "q1", progress := some 30,
    error := some "render engine crashed" }

/-- Helper: an all-transport-failure run rejects with the error of the
read that reaches the ceiling and consumes exactly `maxAttempts - attempts`
reads, however many further results would have been available. -/
theorem pollRun_allErr (maxA : ℕ) (iv : ℚ) (e : String) :
    ∀ n a : ℕ, a < maxA → maxA ≤ a + n →
      (pollRun maxA iv a (List.replicate n (.err e))).outcome = .rejected e ∧
      (pollRun maxA iv a (List.replicate n (.err e))).reads = maxA - a := by
  intro n
  induction n with
  | zero => intro a h1 h2; omega
  | succ n ih =>
    intro a h1 h2
    rw [List.replicate_succ]
    by_cases hc : maxA ≤ a + 1
    · simp [pollRun, hc]
      omega
    · have h3 := ih (a + 1) (by omega) (by omega)
      simp [pollRun, hc, h3.1, h3.2]
      omega

/-- Helper: a run of successful reads that all report a status other than
`completed` and `failed` rejects with the timeout message once the
incremented attempt counter reaches the ceiling, after exactly
`maxAttempts - attempts` reads. -/
theorem pollRun_allOk_timeout (maxA : ℕ) (iv : ℚ) (s : VideoStatusResponse)
    (hc : s.status ≠ "completed") (hf : s.status ≠ "failed") :
    ∀ n a : ℕ, a < maxA → maxA ≤ a + n →
      (pollRun maxA iv a (List.replicate n (.ok s))).outcome =
        .rejected "Video generation timeout" ∧
      (pollRun maxA iv a (List.replicate n (.ok s))).reads = maxA - a := by
  intro n
  induction n with
  | zero => intro a h1 h2; omega
  | succ n ih =>
    intro a h1 h2
    rw [List.replicate_succ]
    by_cases hm : maxA ≤ a + 1
    · simp [pollRun, hc, hf, hm]
      omega
    · have h3 := ih (a + 1) (by omega) (by omega)
      simp [pollRun, hc, hf, hm, h3.1, h3.2]
      omega

/-- Helper: the number of reads consumed by any run is bounded by the
remaining attempt budget. -/
theorem pollRun_reads_le (maxA : ℕ) (iv : ℚ) :
    ∀ (tr : List PollStep) (a : ℕ), a < maxA →
      (pollRun maxA iv a tr).reads ≤ maxA - a := by
  intro tr
  induction tr with
  | nil => intro a h; simp [pollRun]
  | cons hd tl ih =>
    intro a h
    cases hd with
    | ok s =>
      by_cases h1 : s.status = "completed"
      · simp [pollRun, h1]; omega
      · by_cases h2 : s.status = "failed"
        · simp [pollRun, h1, h2]; omega
        · by_cases h3 : maxA ≤ a + 1
          · simp [pollRun, h1, h2, h3]; omega
          · have h4 := ih (a + 1) (by omega)
            simp [pollRun, h1, h2, h3]
            omega
    | err e =>
      by_cases h3 : maxA ≤ a + 1
      · simp [pollRun, h3]; omega
      · have h4 := ih (a + 1) (by omega)
        simp [pollRun, h3]
        omega

/-- Helper: after a successful non-terminal read below the ceiling, the
next scheduled delay is the base interval. -/
theorem pollRun_ok_delay (maxA : ℕ) (iv : ℚ) (a : ℕ)
    (s : VideoStatusResponse) (rest : List PollStep)
    (hc : s.status ≠ "completed") (hf : s.status ≠ "failed")
    (h : a + 1 < maxA) :
    (pollRun maxA iv a (.ok s :: rest)).delays.head? = some iv := by
  have h3 : ¬ maxA ≤ a + 1 := by omega
  simp [pollRun, hc, hf, h3]

/-- Helper: after a failed read below the ceiling, the next scheduled
delay is the backoff computed from the incremented total attempt
counter. -/
theorem pollRun_err_delay (maxA : ℕ) (iv : ℚ) (a : ℕ) (e : String)
    (rest : List PollStep) (h : a + 1 < maxA) :
    (pollRun maxA iv a (.err e :: rest)).delays.head? =
      some (backoffInterval iv (a + 1)) := by
  have h3 : ¬ maxA ≤ a + 1 := by omega
  simp [pollRun, h3]

/-- Helper: a healthy run (successful non-terminal reads only, below the
ceiling) schedules every poll at the base interval. -/
theorem pollRun_healthy (maxA : ℕ) (iv : ℚ) (s : VideoStatusResponse)
    (hc : s.status ≠ "completed") (hf : s.status ≠ "failed") :
    ∀ n a : ℕ, a + n < maxA →
      (pollRun maxA iv a (List.replicate n (.ok s))).delays =
        List.replicate n iv := by
  intro n
  induction n with
  | zero => intro a h; simp [pollRun]
  | succ n ih =>
    intro a h
    rw [List.replicate_succ]
    have hm : ¬ maxA ≤ a + 1 := by omega
    have h3 := ih (a + 1) (by omega)
    simp [pollRun, hc, hf, hm, h3, List.replicate_succ]

/-- Helper: in an uninterrupted run of transport failures that stays below
the ceiling, the delay scheduled after the (j+1)-th failure is the backoff
with exponent `attempts + 1 + j`. -/
theorem pollRun_errRun_delays (maxA : ℕ) (iv : ℚ) (e : String) :
    ∀ n a : ℕ, a + n < maxA → ∀ j, j < n →
      (pollRun maxA iv a (List.replicate n (.err e))).delays[j]? =
        some (backoffInterval iv (a + 1 + j)) := by
  intro n
  induction n with
  | zero => intro a h j hj; omega
  | succ n ih =>
    intro a h j hj
    rw [List.replicate_succ]
    have hm : ¬ maxA ≤ a + 1 := by omega
    cases j with
    | zero => simp [pollRun, hm]
    | succ j =>
      have h3 := ih (a + 1) (by omega) j (by omega)
      have hidx : a + 1 + 1 + j = a + 1 + (j + 1) := by omega
      rw [hidx] at h3
      simp [pollRun, hm, h3]

/-- Helper: the component loop performs exactly one fetch per timer tick,
whatever the outcomes are. -/
theorem compRun_reads :
    ∀ (tr : List FetchOutcome) (st : CompState),
      (compRun st tr).reads = tr.length := by
  intro tr
  induction tr with
  | nil => intro st; rfl
  | cons f rest ih => intro st; simp [compRun, ih]

/-- Helper: read start times in `pollVideoStatus` are monotone when read
durations and delays are nonnegative. -/
theorem pollStart_mono (durs delays : ℕ → ℚ)
    (hdu : ∀ k, 0 ≤ durs k) (hde : ∀ k, 0 ≤ delays k) :
    ∀ i j : ℕ, i ≤ j →
      pollStart durs delays i ≤ pollStart durs delays j := by
  intro i j hij
  induction j, hij using Nat.le_induction with
  | base => exact le_refl _
  | succ j hij ih =>
    have := hdu j
    have := hde j
    simp only [pollStart]
    linarith

/-- Helper: in `pollVideoStatus` a service-reported failure settles the
promise at once with the service error string and consumes no further
read results. -/
theorem pollRun_reportedFailure (maxA : ℕ) (iv : ℚ) (a : ℕ)
    (s : VideoStatusResponse) (rest : List PollStep) (msg : String)
    (hf : s.status = "failed") (he : s.error = some msg) :
    pollRun maxA iv a (.ok s :: rest) =
      ⟨.rejected msg, [s], [], 1⟩ := by
  simp [pollRun, hf, he]

/-- C1: the claim that the `VideoGenerationProgress` component delivers at
most one terminal notification per session and stops polling after a
terminal status fails on the code: after a `completed` read sets
`isPolling` to `false`, the 2-second interval is still alive, a second
read is issued, and `onComplete` fires a second time with the same
payload. The `pollVideoStatus` half of the claim does hold (the promise
settles at most once by the exclusive branch structure), but the component
half does not. -/
theorem comp_double_terminal_after_completed :
    (compRun compInit [.ok completedStatus, .ok completedStatus]).events =
      [.complete completedStatus, .complete completedStatus] ∧
    (compRun compInit [.ok completedStatus]).finalState.isPolling = false ∧
    (compRun compInit [.ok completedStatus, .ok completedStatus]).reads = 2 := by
  decide

/-- C2 counterexample: two consecutive transport failures with a ceiling of
two reach the failed outcome, but the rejection carries the transport
error verbatim, not a timeout-classified error: the outcome differs from
`rejected "Video generation timeout"`. -/
theorem poll_ceiling_error_not_timeout_cex :
    (pollRun 2 5000 0 [.err "network down", .err "network down"]).outcome =
      .rejected "network down" ∧
    (pollRun 2 5000 0 [.err "network down", .err "network down"]).outcome ≠
      .rejected "Video generation timeout" := by
  decide

/-- C2 amended: for every run of at least `maxAttempts` consecutive
transport failures, the tracker terminates in the failed outcome carrying
the last transport error (not a timeout-classified message), and exactly
`maxAttempts` status reads are issued — none after the ceiling. -/
theorem poll_ceiling_rejects_last_error (maxA N : ℕ) (iv : ℚ) (e : String)
    (h1 : 1 ≤ maxA) (h2 : maxA ≤ N) :
    (pollRun maxA iv 0 (List.replicate N (.err e))).outcome =
      .rejected e ∧
    (pollRun maxA iv 0 (List.replicate N (.err e))).reads = maxA := by
  have h3 := pollRun_allErr maxA iv e N 0 (by omega) (by omega)
  simpa using h3

/-- C2 witness: with a ceiling of two and three available failures, the
run rejects with the transport error after exactly two reads. -/
theorem poll_ceiling_rejects_last_error_witness :
    (pollRun 2 5000 0 (List.replicate 3 (.err "network down"))).outcome =
      .rejected "network down" ∧
    (pollRun 2 5000 0 (List.replicate 3 (.err "network down"))).reads = 2 :=
  poll_ceiling_rejects_last_error 2 3 5000 "network down" (by omega) (by omega)

/-- C3 counterexample: the delay scheduled after a single failure that
follows two successful reads is 16875 ms, whereas a fresh run whose very
first read fails schedules 7500 ms — so the delay after a later single
failure is not computed as if no earlier attempts had occurred. -/
theorem poll_backoff_not_reset_cex :
    (pollRun 60 5000 0
        [.ok runningStatus, .ok runningStatus, .err "boom"]).delays.getLast? =
      some 16875 ∧
    (pollRun 60 5000 0 [.err "boom"]).delays.getLast? = some 7500 ∧
    (16875 : ℚ) ≠ 7500 := by
  refine ⟨?_, ?_, by norm_num⟩ <;>
    · simp [pollRun, runningStatus, backoffInterval]
      norm_num

/-- C3 amended: after any successful non-terminal read below the ceiling
the next scheduled delay is the base interval, but the counter feeding the
backoff is the total attempt counter, which no success resets: the delay
after a later failure is the backoff at the incremented total attempt
count, not at a consecutive-failure count. -/
theorem poll_delay_after_success_and_failure :
    (∀ (maxA : ℕ) (iv : ℚ) (a : ℕ) (s : VideoStatusResponse)
        (rest : List PollStep),
        s.status ≠ "completed" → s.status ≠ "failed" → a + 1 < maxA →
        (pollRun maxA iv a (.ok s :: rest)).delays.head? = some iv) ∧
    (∀ (maxA : ℕ) (iv : ℚ) (a : ℕ) (e : String) (rest : List PollStep),
        a + 1 < maxA →
        (pollRun maxA iv a (.err e :: rest)).delays.head? =
          some (backoffInterval iv (a + 1))) :=
  ⟨pollRun_ok_delay, pollRun_err_delay⟩

/-- C3 witness: at attempt count 0 with interval 5000 a successful read
schedules 5000 ms, and at attempt count 2 (after two earlier reads) a
failure schedules the backoff at exponent 3. -/
theorem poll_delay_after_success_and_failure_witness :
    (pollRun 60 5000 0 [.ok runningStatus]).delays.head? = some 5000 ∧
    (pollRun 60 5000 2 [.err "x"]).delays.head? =
      some (backoffInterval 5000 3) :=
  ⟨poll_delay_after_success_and_failure.1 60 5000 0 runningStatus []
      (by decide) (by decide) (by omega),
   poll_delay_after_success_and_failure.2 60 5000 2 "x" [] (by omega)⟩

/-- C4: the claim that a service-reported failure terminates the tracker
with the verbatim error and zero further reads holds for
`pollVideoStatus` — the run below rejects with "render engine crashed"
after two reads and never consumes the third available result — but fails
on the `VideoGenerationProgress` component: after a `failed` read the
interval stays alive, a second read is issued, and `onError` fires a
second time with the same verbatim message. -/
theorem comp_reported_failure_bug :
    (pollRun 60 5000 0
        [.ok runningStatus, .ok failedStatus, .ok runningStatus]).outcome =
      .rejected "render engine crashed" ∧
    (pollRun 60 5000 0
        [.ok runningStatus, .ok failedStatus, .ok runningStatus]).reads = 2 ∧
    (compRun compInit [.ok failedStatus, .ok failedStatus]).events =
      [.errorEv "render engine crashed", .errorEv "render engine crashed"] ∧
    (compRun compInit [.ok failedStatus, .ok failedStatus]).reads = 2 := by
  decide

/-- C5 counterexample: the component polling loop is not bounded by the
attempt ceiling: 61 consecutive network errors produce 61 status reads,
exceeding the default ceiling of 60. -/
theorem comp_reads_exceed_ceiling_cex :
    (compRun compInit (List.replicate 61 .networkError)).reads = 61 ∧
    ¬ (61 : ℕ) ≤ 60 := by
  decide

/-- C5 amended: `pollVideoStatus` issues at most `maxAttempts` status
reads on any trace, but the `VideoGenerationProgress` loop has no attempt
ceiling: under sustained unreachability it issues one read per tick,
unboundedly many while the component stays mounted. -/
theorem poll_reads_bounded_comp_unbounded :
    (∀ (maxA : ℕ) (iv : ℚ) (tr : List PollStep), 1 ≤ maxA →
        (pollRun maxA iv 0 tr).reads ≤ maxA) ∧
    (∀ n : ℕ,
        (compRun compInit (List.replicate n .networkError)).reads = n) := by
  constructor
  · intro maxA iv tr h
    have h2 := pollRun_reads_le maxA iv tr 0 (by omega)
    omega
  · intro n
    rw [compRun_reads]
    exact List.length_replicate n _

/-- C5 witness: with ceiling 60, a run over 100 available transport
failures stops within 60 reads, while 61 component ticks issue 61
reads. -/
theorem poll_reads_bounded_comp_unbounded_witness :
    (pollRun 60 5000 0 (List.replicate 100 (.err "x"))).reads ≤ 60 ∧
    (compRun compInit (List.replicate 61 .networkError)).reads = 61 :=
  ⟨poll_reads_bounded_comp_unbounded.1 60 5000
      (List.replicate 100 (.err "x")) (by omega),
   poll_reads_bounded_comp_unbounded.2 61⟩

/-- C6 counterexample: in the component loop a read that takes 3000 ms is
still in flight when the next read starts at t = 2000 ms, so two status
reads of the same tracker are in flight concurrently. -/
theorem comp_overlapping_reads_cex :
    compReadConcurrent (fun i => if i = 0 then 3000 else 1000) 0 1 := by
  refine ⟨by omega, ?_⟩
  simp [compReadTime]
  norm_num

/-- C6 amended: in `pollVideoStatus` each read starts only after the
previous read settled and its scheduled delay elapsed, so reads never
overlap; the component loop instead issues reads on a fixed 2000 ms
schedule independent of in-flight reads, and any read lasting longer than
2000 ms overlaps the next one. -/
theorem poll_sequential_comp_overlap :
    (∀ durs delays : ℕ → ℚ, (∀ k, 0 ≤ durs k) → (∀ k, 0 ≤ delays k) →
        ∀ i j : ℕ, i < j →
        pollStart durs delays i + durs i ≤ pollStart durs delays j) ∧
    (∀ (durs : ℕ → ℚ) (i : ℕ), 2000 < durs i →
        compReadConcurrent durs i (i + 1)) := by
  constructor
  · intro durs delays hdu hde i j hij
    have h1 : pollStart durs delays i + durs i ≤
        pollStart durs delays (i + 1) := by
      have := hde i
      simp only [pollStart]
      linarith
    have h2 := pollStart_mono durs delays hdu hde (i + 1) j hij
    linarith
  · intro durs i h
    refine ⟨Nat.lt_succ_self i, ?_⟩
    have h2 : (compReadTime (i + 1) : ℚ) = (compReadTime i : ℚ) + 2000 := by
      simp [compReadTime]
      ring
    rw [h2]
    linarith

/-- C6 witness: with unit durations and 5000 ms delays the first poll read
ends before the second starts, and a component read lasting 3000 ms
overlaps the next tick. -/
theorem poll_sequential_comp_overlap_witness :
    pollStart (fun _ => (1000 : ℚ)) (fun _ => 5000) 0 + 1000 ≤
      pollStart (fun _ => (1000 : ℚ)) (fun _ => 5000) 1 ∧
    compReadConcurrent (fun _ => 3000) 0 1 :=
  ⟨poll_sequential_comp_overlap.1 (fun _ => 1000) (fun _ => 5000)
      (fun _ => by norm_num) (fun _ => by norm_num) 0 1 (by omega),
   poll_sequential_comp_overlap.2 (fun _ => 3000) 0 (by norm_num)⟩

/-- C7: the first status read is issued with no initial delay in both
loops — the component read schedule starts at t = 0 and advances by
exactly 2000 ms per tick, and the first `pollVideoStatus` read starts at
t = 0 — and under healthy conditions (successful non-terminal reads below
the ceiling) every subsequent `pollVideoStatus` read is scheduled at the
base interval. -/
theorem first_read_immediate_fixed_interval :
    (compReadTime 0 = 0 ∧
      ∀ i : ℕ, compReadTime (i + 1) = compReadTime i + 2000) ∧
    (∀ durs delays : ℕ → ℚ, pollStart durs delays 0 = 0) ∧
    (∀ (maxA n : ℕ) (iv : ℚ) (s : VideoStatusResponse),
        s.status ≠ "completed" → s.status ≠ "failed" → n < maxA →
        (pollRun maxA iv 0 (List.replicate n (.ok s))).delays =
          List.replicate n iv) := by
  refine ⟨⟨rfl, fun i => ?_⟩, fun _ _ => rfl, ?_⟩
  · simp [compReadTime]
    ring
  · intro maxA n iv s hc hf h
    exact pollRun_healthy maxA iv s hc hf n 0 (by omega)

/-- C7 witness: three healthy running reads under ceiling 60 schedule
three base-interval delays of 5000 ms. -/
theorem first_read_immediate_fixed_interval_witness :
    (pollRun 60 5000 0 (List.replicate 3 (.ok runningStatus))).delays =
      List.replicate 3 5000 :=
  first_read_immediate_fixed_interval.2.2 60 3 5000 runningStatus
    (by decide) (by decide) (by omega)

/-- C8 counterexample: after one successful read followed by one transport
failure — a consecutive-failure count of one — the scheduled delay is
11250 ms, not the 7500 ms that base × 1.5 ^ 1 (capped) would give: the
exponent is the total attempt count, not the consecutive-failure count. -/
theorem backoff_exponent_cex :
    (pollRun 60 5000 0 [.ok runningStatus, .err "boom"]).delays =
      [5000, 11250] ∧
    (11250 : ℚ) ≠ min ((5000 : ℚ) * (3 / 2) ^ 1) 30000 := by
  constructor
  · simp [pollRun, runningStatus, backoffInterval]
    norm_num
  · norm_num

/-- C8 amended: the retry delay scheduled after any failed read below the
ceiling is min(interval × 1.5 ^ (a + 1), 30000) where a is the total
attempt count on entry (successes included), exactly the line-171
expression with the already-incremented counter; in a run consisting only
of consecutive transport failures this exponent coincides with the
consecutive-failure count, and the delay is monotone non-decreasing in the
exponent for nonnegative intervals and never exceeds the 30000 ms cap. -/
theorem backoff_formula_amended :
    (∀ (maxA : ℕ) (iv : ℚ) (a : ℕ) (e : String) (rest : List PollStep),
        a + 1 < maxA →
        (pollRun maxA iv a (.err e :: rest)).delays.head? =
          some (min (iv * (3 / 2) ^ (a + 1)) 30000)) ∧
    (∀ (maxA n : ℕ) (iv : ℚ) (e : String) (j : ℕ), n < maxA → j < n →
        (pollRun maxA iv 0 (List.replicate n (.err e))).delays[j]? =
          some (backoffInterval iv (j + 1))) ∧
    (∀ (iv : ℚ) (a b : ℕ), 0 ≤ iv → a ≤ b →
        backoffInterval iv a ≤ backoffInterval iv b) ∧
    (∀ (iv : ℚ) (a : ℕ), backoffInterval iv a ≤ 30000) := by
  refine ⟨?_, ?_, ?_, fun iv a => min_le_right _ _⟩
  · intro maxA iv a e rest h
    exact pollRun_err_delay maxA iv a e rest h
  · intro maxA n iv e j hn hj
    have h := pollRun_errRun_delays maxA iv e n 0 (by omega) j hj
    have hidx : 0 + 1 + j = j + 1 := by omega
    rwa [hidx] at h
  · intro iv a b hiv hab
    refine min_le_min ?_ (le_refl _)
    refine mul_le_mul_of_nonneg_left ?_ hiv
    exact pow_le_pow_right₀ (by norm_num) hab

/-- C8 witness: a failure at total attempt count 2 schedules the explicit
capped delay with exponent 3, in a pure-failure run the second scheduled
delay is the backoff at exponent 2, the backoff is monotone from exponent
2 to 5, and the backoff at exponent 7 respects the cap. -/
theorem backoff_formula_amended_witness :
    (pollRun 60 5000 2 [.err "y"]).delays.head? =
      some (min ((5000 : ℚ) * (3 / 2) ^ 3) 30000) ∧
    (pollRun 60 5000 0 (List.replicate 2 (.err "x"))).delays[1]? =
      some (backoffInterval 5000 2) ∧
    backoffInterval 5000 2 ≤ backoffInterval 5000 5 ∧
    backoffInterval 5000 7 ≤ 30000 :=
  ⟨backoff_formula_amended.1 60 5000 2 "y" [] (by omega),
   backoff_formula_amended.2.1 60 2 5000 "x" 1 (by omega) (by omega),
   backoff_formula_amended.2.2.1 5000 2 5 (by norm_num) (by omega),
   backoff_formula_amended.2.2.2 5000 7⟩

/-- C9: the attempt counter counts successful reads too, and the ceiling
check on the success path applies to non-terminal statuses: a run of
exactly `maxAttempts` successful reads that all report a non-terminal
status is rejected with the message "Video generation timeout", although
the trace contains no transport failure. -/
theorem poll_success_path_timeout (maxA : ℕ) (iv : ℚ)
    (s : VideoStatusResponse) (h1 : 1 ≤ maxA)
    (hc : s.status ≠ "completed") (hf : s.status ≠ "failed") :
    (pollRun maxA iv 0 (List.replicate maxA (.ok s))).outcome =
      .rejected "Video generation timeout" ∧
    (pollRun maxA iv 0 (List.replicate maxA (.ok s))).reads = maxA := by
  have h2 := pollRun_allOk_timeout maxA iv s hc hf maxA 0 (by omega) (by omega)
  simpa using h2

/-- C9 witness: sixty running reads under the default ceiling of sixty
reject with the timeout message after sixty reads. -/
theorem poll_success_path_timeout_witness :
    (pollRun 60 5000 0 (List.replicate 60 (.ok runningStatus))).outcome =
      .rejected "Video generation timeout" ∧
    (pollRun 60 5000 0 (List.replicate 60 (.ok runningStatus))).reads = 60 :=
  poll_success_path_timeout 60 5000 runningStatus (by omega) (by decide)
    (by decide)

/-- C10: in the component a non-2xx response or a network error leaves the
state untouched and dispatches no event, and the loop keeps issuing
exactly one read per tick on every trace — there is no failure counting,
no backoff and no retry ceiling. -/
theorem comp_error_branch_silent :
    (∀ st : CompState,
        compStep st .httpError = (st, []) ∧
        compStep st .networkError = (st, [])) ∧
    (∀ (st : CompState) (tr : List FetchOutcome),
        (compRun st tr).reads = tr.length) :=
  ⟨fun _ => ⟨rfl, rfl⟩, fun st tr => compRun_reads tr st⟩
